import Mathlib

set_option autoImplicit false

/-!
Shallow embedding of `src/web_app.py` (Flask web application for the map
poster generator): the in-memory job store, the background generation
worker `run_generation`, and the HTTP handlers `generate` and `get_status`.

External collaborators (the `create_map_poster` module, Python builtins,
`uuid`) are modelled as explicitly passed parameters or as faithful pure
models, documented at each definition.
-/

/-- Python exception classes that the distance conversion in the `generate`
handler can raise: `int(x)` raises `ValueError` for an unparsable string and
`TypeError` for a value of a non-numeric type such as `None` or a list. -/
inductive PyErr where
  | valueError
  | typeError
deriving DecidableEq, Repr

/-- JSON values as they can appear in the `distance` field of a generate
request body.  Arrays and objects are kept abstract (only their type matters
to `int()`); JSON floats are not modelled, as no claim concerns them. -/
inductive JVal where
  | jnull
  | jbool (b : Bool)
  | jint (n : Int)
  | jstr (s : String)
  | jarr
  | jobj
deriving DecidableEq, Repr

/-- Parse a nonempty all-digit character list as a natural number. -/
def parseDigits (cs : List Char) : Option Nat :=
  match cs with
  | [] => none
  | _ =>
    if cs.all (fun c => c.isDigit) then
      some (cs.foldl (fun n c => n * 10 + (c.toNat - 48)) 0)
    else none

/-- Model of Python `str.strip()` with no argument: remove leading and
trailing whitespace.  (Python also strips some Unicode space characters not
covered by `Char.isWhitespace`; no claim depends on them.) -/
def pyStrip (s : String) : String :=
  String.mk (((s.data.dropWhile Char.isWhitespace).reverse.dropWhile
    Char.isWhitespace).reverse)

/-- Model of CPython `int(s)` on a string: surrounding whitespace is
stripped, then an optional sign followed by at least one digit.  (Grouping
underscores and non-ASCII digits, which CPython also accepts, are not
modelled; no claim depends on them.)  `none` models a raised `ValueError`. -/
def pyIntOfStr (s : String) : Option Int :=
  match (pyStrip s).data with
  | [] => none
  | c :: cs =>
    if c = '-' then (parseDigits cs).map (fun n => -(n : Int))
    else if c = '+' then (parseDigits cs).map (fun n => (n : Int))
    else (parseDigits (c :: cs)).map (fun n => (n : Int))

/-- Model of CPython `int(x)` on a JSON-decoded value: booleans convert to
0 or 1, integers are returned, strings are parsed (raising `ValueError` on
failure), and values of any other type raise `TypeError`. -/
def pyInt : JVal → Except PyErr Int
  | JVal.jnull => Except.error PyErr.typeError
  | JVal.jbool b => Except.ok (if b then 1 else 0)
  | JVal.jint n => Except.ok n
  | JVal.jstr s =>
    match pyIntOfStr s with
    | some n => Except.ok n
    | none => Except.error PyErr.valueError
  | JVal.jarr => Except.error PyErr.typeError
  | JVal.jobj => Except.error PyErr.typeError

/-- Model of `os.path.basename` on POSIX paths: the part after the last
slash. -/
def basename (p : String) : String :=
  (p.splitOn "/").getLastD ""

/-- The `params` sub-dictionary stored in a job record at creation
(web_app.py, lines 147-153). -/
structure JobParams where
  city : String
  country : String
  theme : String
  distance : Int
  display_name : Option String
deriving DecidableEq, Repr

/-- One job record of the in-memory `jobs` dictionary (web_app.py,
lines 142-154): status string, progress percentage, optional result
filename, optional error message, and the submission parameters. -/
structure Job where
  status : String
  progress : Nat
  result : Option String
  error : Option String
  params : JobParams
deriving DecidableEq, Repr

/-- The `jobs` dictionary: an insertion-ordered association list from job id
to job record, as a Python dict with unique keys. -/
abbrev JobStore : Type := List (String × Job)

/-- Dictionary lookup `jobs[job_id]` / membership test `job_id in jobs`:
the value at the first entry carrying the key, if any. -/
def storeLookup (jobs : JobStore) (job_id : String) : Option Job :=
  match jobs with
  | [] => none
  | entry :: rest =>
    if entry.1 = job_id then some entry.2 else storeLookup rest job_id

/-- Dictionary assignment `jobs[job_id] = j`: overwrite in place when the
key exists, append otherwise (Python dicts keep insertion order). -/
def storeInsert (jobs : JobStore) (job_id : String) (j : Job) : JobStore :=
  if (storeLookup jobs job_id).isSome then
    jobs.map (fun entry => if entry.1 = job_id then (entry.1, j) else entry)
  else
    jobs ++ [(job_id, j)]

/-- The record transformation performed by the body of `update_job_status`
(web_app.py, lines 33-39): the status is always overwritten; each of
progress, result and error is overwritten only when the corresponding
argument is not `None`; the params field is never touched. -/
def applyUpd (status : String) (progress : Option Nat)
    (result error : Option String) (j : Job) : Job :=
  { j with
    status := status
    progress := match progress with
      | some p => p
      | none => j.progress
    result := match result with
      | some r => some r
      | none => j.result
    error := match error with
      | some e => some e
      | none => j.error }

/-- `update_job_status` (web_app.py, lines 29-39): if the job id is present,
apply `applyUpd` to its record; if the id is absent, do nothing.  The
lock-guarded dict mutation becomes one atomic pure update. -/
def update_job_status (jobs : JobStore) (job_id : String) (status : String)
    (progress : Option Nat) (result : Option String) (error : Option String) :
    JobStore :=
  jobs.map fun entry =>
    if entry.1 = job_id then (entry.1, applyUpd status progress result error entry.2)
    else entry

/-- Coordinates returned by the external geocoder (kept abstract). -/
abbrev Coords : Type := Int × Int

/-- A loaded theme object (kept abstract). -/
abbrev ThemeObj : Type := String

/-- Modelled from the spec: the external poster-generation library
(`create_map_poster`, not under src/) as used by `run_generation` — a
coordinate resolver keyed by city and country, a theme loader keyed by
theme name, a deterministic output-filename generator keyed by place name
and theme, and a synchronous rendering call.  Each call either returns a
value or raises; a raised exception is modelled as `Except.error` carrying
the exception message `str(e)`, which may be any string, the empty string
included. -/
structure Env where
  get_coordinates : String → String → Except String Coords
  load_theme : String → Except String ThemeObj
  generate_output_filename : String → String → Except String String
  create_poster : String → String → Coords → Int → String → Option String →
    Except String Unit

/-- Python truthiness choice `display_name if display_name else city`:
`None` and the empty string both fall back to the default. -/
def pyOrElse (o : Option String) (dflt : String) : String :=
  match o with
  | some s => if s = "" then dflt else s
  | none => dflt

/-- `run_generation` (web_app.py, lines 42-75): the five-phase background
worker.  Each phase first records its status and progress in the job store;
any exception from an external call jumps to the `except` clause, which
records the terminal error status with the exception message and leaves
progress and result untouched.  (The assignment to the process-global
`poster.THEME` in step 2 has no observable effect on the job store and is
not tracked.)  The function is total: no exception escapes it. -/
def run_generation (env : Env) (jobs : JobStore) (job_id : String)
    (city country theme_name : String) (distance : Int)
    (display_name : Option String) : JobStore :=
  let jobs1 := update_job_status jobs job_id "geocoding" (some 10) none none
  match env.get_coordinates city country with
  | Except.error e => update_job_status jobs1 job_id "error" none none (some e)
  | Except.ok coords =>
    let jobs2 := update_job_status jobs1 job_id "loading_theme" (some 20) none none
    match env.load_theme theme_name with
    | Except.error e => update_job_status jobs2 job_id "error" none none (some e)
    | Except.ok _theme =>
      let jobs3 := update_job_status jobs2 job_id "downloading" (some 30) none none
      let filename_city := pyOrElse display_name city
      match env.generate_output_filename filename_city theme_name with
      | Except.error e => update_job_status jobs3 job_id "error" none none (some e)
      | Except.ok output_file =>
        let jobs4 := update_job_status jobs3 job_id "rendering" (some 50) none none
        match env.create_poster city country coords distance output_file display_name with
        | Except.error e => update_job_status jobs4 job_id "error" none none (some e)
        | Except.ok _ =>
          update_job_status jobs4 job_id "complete" (some 100)
            (some (basename output_file)) none

/-- One call to `update_job_status` made by the worker: the status and the
optional progress, result and error arguments it passes. -/
structure UpdEvent where
  status : String
  progress : Option Nat
  result : Option String
  error : Option String
deriving DecidableEq, Repr

/-- The sequence of `update_job_status` calls that `run_generation` performs
for given external-call outcomes, in order.  This is the event trace of the
worker; `run_generation_eq_foldl` below ties it to `run_generation`. -/
def run_generation_events (env : Env) (city country theme_name : String)
    (distance : Int) (display_name : Option String) : List UpdEvent :=
  UpdEvent.mk "geocoding" (some 10) none none ::
  match env.get_coordinates city country with
  | Except.error e => [UpdEvent.mk "error" none none (some e)]
  | Except.ok coords =>
    UpdEvent.mk "loading_theme" (some 20) none none ::
    match env.load_theme theme_name with
    | Except.error e => [UpdEvent.mk "error" none none (some e)]
    | Except.ok _theme =>
      UpdEvent.mk "downloading" (some 30) none none ::
      match env.generate_output_filename (pyOrElse display_name city) theme_name with
      | Except.error e => [UpdEvent.mk "error" none none (some e)]
      | Except.ok output_file =>
        UpdEvent.mk "rendering" (some 50) none none ::
        match env.create_poster city country coords distance output_file display_name with
        | Except.error e => [UpdEvent.mk "error" none none (some e)]
        | Except.ok _ =>
          [UpdEvent.mk "complete" (some 100) (some (basename output_file)) none]

/-- Apply one worker update event to the store. -/
def applyEvent (job_id : String) (jobs : JobStore) (ev : UpdEvent) : JobStore :=
  update_job_status jobs job_id ev.status ev.progress ev.result ev.error

/-- Whether the worker body raises an exception at some phase, i.e. at least
one of the four external calls fails (in the order the worker makes them). -/
def workerRaises (env : Env) (city country theme_name : String)
    (distance : Int) (display_name : Option String) : Bool :=
  match env.get_coordinates city country with
  | Except.error _ => true
  | Except.ok coords =>
    match env.load_theme theme_name with
    | Except.error _ => true
    | Except.ok _ =>
      match env.generate_output_filename (pyOrElse display_name city) theme_name with
      | Except.error _ => true
      | Except.ok output_file =>
        match env.create_poster city country coords distance output_file display_name with
        | Except.error _ => true
        | Except.ok _ => false

/-- The successor of each non-terminal status in the nominal lifecycle. -/
def nextStatus : String → Option String
  | "pending" => some "geocoding"
  | "geocoding" => some "loading_theme"
  | "loading_theme" => some "downloading"
  | "downloading" => some "rendering"
  | "rendering" => some "complete"
  | _ => none

/-- The progress percentage the worker records at each phase status. -/
def phaseProgress : String → Option Nat
  | "geocoding" => some 10
  | "loading_theme" => some 20
  | "downloading" => some 30
  | "rendering" => some 50
  | "complete" => some 100
  | _ => none

/-- A permitted status transition: the successor in the nominal sequence, or
a direct jump to the terminal error status. -/
def validStep (s t : String) : Prop :=
  nextStatus s = some t ∨ t = "error"

instance (s t : String) : Decidable (validStep s t) :=
  inferInstanceAs (Decidable (nextStatus s = some t ∨ t = "error"))

/-- A generate request body, after JSON decoding.  The handler treats city,
country, theme and display_name as strings (it calls `.strip()` or compares
them to strings), so those fields are modelled as optional strings; distance
may be any JSON value, which is what the `int()` conversion scrutinises. -/
structure GenRequest where
  city : Option String
  country : Option String
  theme : Option String
  distance : Option JVal
  display_name : Option String
deriving DecidableEq, Repr

/-- The arguments with which `generate` starts the background worker thread
(web_app.py, lines 157-162). -/
structure WorkerCall where
  job_id : String
  city : String
  country : String
  theme_name : String
  distance : Int
  display_name : Option String
deriving DecidableEq, Repr

/-- The observable outcome of a non-raising `generate` call: HTTP status
code, optional error body, optional job id body, the job store after the
call, and the worker thread started, if any. -/
structure GenResult where
  code : Nat
  error_msg : Option String
  job_id : Option String
  jobs : JobStore
  worker : Option WorkerCall
deriving DecidableEq, Repr

/-- A single-quote character as a string, used in the unknown-theme error
message. -/
def squo : String := (Char.ofNat 39).toString

/-- `data.get('display_name', '').strip() or None`: the stripped display
name, or `None` when missing or blank. -/
def strippedOrNone (o : Option String) : Option String :=
  let s := pyStrip (o.getD "")
  if s = "" then none else some s

/-- `generate` (web_app.py, lines 110-164): validate city and country
(blank after stripping is a 400), default theme and distance, validate the
theme id against the available set (400 with a message naming the theme),
convert the distance with `int()` — only `ValueError` is caught (400);
a `TypeError` from a non-numeric type propagates unhandled (`Except.error`)
— and range-check it (400 outside [1000, 50000]); then insert the pending
job record under a fresh id from `uuid4` (passed here as `new_id`), start
the worker thread, and return the job id.

The available theme list (from `poster.get_available_themes()`) and the
generated uuid are external inputs, passed as parameters. -/
def generate (available_themes : List String) (new_id : String)
    (jobs : JobStore) (data : GenRequest) : Except PyErr GenResult :=
  let city := pyStrip (data.city.getD "")
  let country := pyStrip (data.country.getD "")
  if city = "" ∨ country = "" then
    Except.ok (GenResult.mk 400 (some "City and country are required") none jobs none)
  else
    let theme_name := data.theme.getD "feature_based"
    let distance := data.distance.getD (JVal.jint 10000)
    let display_name := strippedOrNone data.display_name
    if theme_name ∉ available_themes then
      Except.ok (GenResult.mk 400
        (some ("Theme " ++ squo ++ theme_name ++ squo ++ " not found")) none jobs none)
    else
      match pyInt distance with
      | Except.error PyErr.valueError =>
        Except.ok (GenResult.mk 400 (some "Invalid distance value") none jobs none)
      | Except.error e => Except.error e
      | Except.ok d =>
        if d < 1000 ∨ d > 50000 then
          Except.ok (GenResult.mk 400
            (some "Distance must be between 1000 and 50000 meters") none jobs none)
        else
          let job := Job.mk "pending" 0 none none
            (JobParams.mk city country theme_name d display_name)
          let jobs1 := storeInsert jobs new_id job
          Except.ok (GenResult.mk 200 none (some new_id) jobs1
            (some (WorkerCall.mk new_id city country theme_name d display_name)))

/-- The body of a status response: the not-found error object, or the job
snapshot. -/
inductive StatusResp where
  | err (msg : String)
  | snapshot (job : Job)
deriving DecidableEq, Repr

/-- `get_status` (web_app.py, lines 167-176): under the store lock, an
absent id yields a 404 with the error body, and a present id yields a 200
with a copy of the full current record. -/
def get_status (jobs : JobStore) (job_id : String) : Nat × StatusResp :=
  match storeLookup jobs job_id with
  | none => (404, StatusResp.err "Job not found")
  | some j => (200, StatusResp.snapshot j)

/-! ## Store lemmas -/

/-- The update body in closed form: new status, `getD`-style progress and
`or`-style result and error, params untouched. -/
theorem applyUpd_eq (s : String) (p : Option Nat) (r e : Option String) (j : Job) :
    applyUpd s p r e j =
      Job.mk s (p.getD j.progress) (r.or j.result) (e.or j.error) j.params := by
  cases p <;> cases r <;> cases e <;> rfl

/-- Looking up the updated id after `update_job_status` sees the transformed
record (or nothing, when the id was absent). -/
theorem storeLookup_update_self (jobs : JobStore) (job_id s : String)
    (p : Option Nat) (r e : Option String) :
    storeLookup (update_job_status jobs job_id s p r e) job_id =
      (storeLookup jobs job_id).map (applyUpd s p r e) := by
  induction jobs with
  | nil => rfl
  | cons hd tl ih =>
    obtain ⟨k, j⟩ := hd
    by_cases hk : k = job_id
    · subst hk
      simp [update_job_status, storeLookup]
    · simp only [update_job_status, List.map_cons] at ih ⊢
      simp [storeLookup, hk]
      exact ih

/-- `update_job_status` on an absent id is the identity on the store. -/
theorem update_job_status_absent_eq (jobs : JobStore) (job_id s : String)
    (p : Option Nat) (r e : Option String)
    (h : storeLookup jobs job_id = none) :
    update_job_status jobs job_id s p r e = jobs := by
  induction jobs with
  | nil => rfl
  | cons hd tl ih =>
    obtain ⟨k, j⟩ := hd
    by_cases hk : k = job_id
    · simp [storeLookup, hk] at h
    · simp only [storeLookup, if_neg hk] at h
      simp only [update_job_status, List.map_cons] at ih ⊢
      simp [hk]
      exact ih h

/-- Lookup distributes over append, preferring the left list. -/
theorem storeLookup_append (l1 l2 : JobStore) (job_id : String) :
    storeLookup (l1 ++ l2) job_id =
      (storeLookup l1 job_id).or (storeLookup l2 job_id) := by
  induction l1 with
  | nil => rfl
  | cons hd tl ih =>
    by_cases hk : hd.1 = job_id <;> simp [storeLookup, hk, ih]

/-- Looking up the overwritten id after the overwrite branch of
`storeInsert` sees the new record whenever the id was present. -/
theorem storeLookup_map_overwrite (jobs : JobStore) (job_id : String) (j : Job) :
    storeLookup
        (jobs.map (fun entry => if entry.1 = job_id then (entry.1, j) else entry))
        job_id =
      (storeLookup jobs job_id).map (fun _ => j) := by
  induction jobs with
  | nil => rfl
  | cons hd tl ih =>
    obtain ⟨k, j0⟩ := hd
    by_cases hk : k = job_id
    · subst hk
      simp [storeLookup]
    · simp only [List.map_cons] at ih ⊢
      simp [storeLookup, hk]
      exact ih

/-- After `storeInsert`, looking up the inserted id finds the new record. -/
theorem storeLookup_insert_self (jobs : JobStore) (job_id : String) (j : Job) :
    storeLookup (storeInsert jobs job_id j) job_id = some j := by
  by_cases h : (storeLookup jobs job_id).isSome
  · obtain ⟨j0, hj0⟩ := Option.isSome_iff_exists.mp h
    simp [storeInsert, h, storeLookup_map_overwrite, hj0]
  · have hn : storeLookup jobs job_id = none := Option.not_isSome_iff_eq_none.mp h
    simp [storeInsert, h, storeLookup_append, hn, storeLookup]

/-- `run_generation` is the fold of its event trace over the store: the
worker is exactly the sequence of `update_job_status` calls recorded by
`run_generation_events`. -/
theorem run_generation_eq_foldl (env : Env) (jobs : JobStore)
    (job_id city country theme_name : String) (distance : Int)
    (display_name : Option String) :
    run_generation env jobs job_id city country theme_name distance display_name =
      (run_generation_events env city country theme_name distance display_name).foldl
        (applyEvent job_id) jobs := by
  cases h1 : env.get_coordinates city country with
  | error e => simp [run_generation, run_generation_events, h1, applyEvent]
  | ok coords =>
    cases h2 : env.load_theme theme_name with
    | error e => simp [run_generation, run_generation_events, h1, h2, applyEvent]
    | ok th =>
      cases h3 : env.generate_output_filename (pyOrElse display_name city) theme_name with
      | error e =>
        simp [run_generation, run_generation_events, h1, h2, h3, applyEvent]
      | ok f =>
        cases h4 : env.create_poster city country coords distance f display_name with
        | error e =>
          simp [run_generation, run_generation_events, h1, h2, h3, h4, applyEvent]
        | ok u =>
          simp [run_generation, run_generation_events, h1, h2, h3, h4, applyEvent]

/-! ## Concrete fixtures -/

/-- Submission parameters of the sample job. -/
def params0 : JobParams := JobParams.mk "Paris" "France" "noir" 10000 none

/-- A freshly created job record, as `generate` stores it. -/
def job0 : Job := Job.mk "pending" 0 none none params0

/-- A store holding the single sample job under id `j1`. -/
def store0 : JobStore := [("j1", job0)]

/-- An environment in which every external call succeeds. -/
def envOk : Env :=
  Env.mk (fun _ _ => Except.ok (48, 2)) (fun t => Except.ok t)
    (fun c t => Except.ok ("posters/" ++ c ++ "_" ++ t ++ ".png"))
    (fun _ _ _ _ _ _ => Except.ok ())

/-- An environment whose rendering call raises with message `boom`. -/
def envFailRender : Env :=
  Env.mk (fun _ _ => Except.ok (48, 2)) (fun t => Except.ok t)
    (fun c t => Except.ok ("posters/" ++ c ++ "_" ++ t ++ ".png"))
    (fun _ _ _ _ _ _ => Except.error "boom")

/-- An environment whose rendering call raises an exception whose `str(e)`
is the empty string (as for `raise ValueError()` with no arguments). -/
def envEmptyMsg : Env :=
  Env.mk (fun _ _ => Except.ok (48, 2)) (fun t => Except.ok t)
    (fun c t => Except.ok ("posters/" ++ c ++ "_" ++ t ++ ".png"))
    (fun _ _ _ _ _ _ => Except.error "")

/-! ## Claim theorems -/

/-- Claim C9: for a job id absent from the store, `update_job_status` with
any status, progress, result and error arguments leaves the store completely
unchanged (and, being a total function, raises nothing); the update is
silently dropped rather than creating a record. -/
theorem claim_C9_update_absent_id_noop (jobs : JobStore) (job_id s : String)
    (p : Option Nat) (r e : Option String)
    (h : storeLookup jobs job_id = none) :
    update_job_status jobs job_id s p r e = jobs :=
  update_job_status_absent_eq jobs job_id s p r e h

/-- Witness for claim C9 at a concrete store and an unused id. -/
theorem claim_C9_witness :
    storeLookup store0 "zzz" = none ∧
    update_job_status store0 "zzz" "error" (some 5) (some "x") (some "y") = store0 :=
  ⟨by decide,
   claim_C9_update_absent_id_noop store0 "zzz" "error" (some 5) (some "x")
     (some "y") (by decide)⟩

/-- Claim C10: for an existing job, `update_job_status` leaves progress,
result and error unchanged when the corresponding argument is `None` and
never modifies the stored params; in particular the error transition made
with only a message keeps the previous progress and result. -/
theorem claim_C10_update_frame (jobs : JobStore) (job_id s : String)
    (p : Option Nat) (r e : Option String) (j : Job)
    (h : storeLookup jobs job_id = some j) :
    storeLookup (update_job_status jobs job_id s p r e) job_id =
      some (Job.mk s (p.getD j.progress) (r.or j.result) (e.or j.error) j.params) ∧
    ∀ m : String,
      storeLookup (update_job_status jobs job_id "error" none none (some m)) job_id =
        some (Job.mk "error" j.progress j.result (some m) j.params) := by
  constructor
  · rw [storeLookup_update_self, h, Option.map_some', applyUpd_eq]
  · intro m
    rw [storeLookup_update_self, h]
    rfl

/-- Witness for claim C10 at a concrete store and job. -/
theorem claim_C10_witness :
    storeLookup (update_job_status store0 "j1" "geocoding" (some 10) none none) "j1" =
      some (Job.mk "geocoding" 10 none none params0) ∧
    storeLookup (update_job_status store0 "j1" "error" none none (some "boom")) "j1" =
      some (Job.mk "error" 0 none (some "boom") params0) := by
  have h := claim_C10_update_frame store0 "j1" "geocoding" (some 10) none none job0
    (by decide)
  exact ⟨h.1, h.2 "boom"⟩

/-- Claim C8: a status query for an absent job id returns 404 with the body
`Job not found`, and for a present id returns 200 with the full current
record as its snapshot. -/
theorem claim_C8_get_status_spec (jobs : JobStore) (job_id : String) :
    (storeLookup jobs job_id = none →
      get_status jobs job_id = (404, StatusResp.err "Job not found")) ∧
    (∀ j : Job, storeLookup jobs job_id = some j →
      get_status jobs job_id = (200, StatusResp.snapshot j)) := by
  constructor
  · intro h
    simp [get_status, h]
  · intro j h
    simp [get_status, h]

/-- Witness for claim C8 at a concrete store, an unused id and a used id. -/
theorem claim_C8_witness :
    get_status store0 "zzz" = (404, StatusResp.err "Job not found") ∧
    get_status store0 "j1" = (200, StatusResp.snapshot job0) :=
  ⟨(claim_C8_get_status_spec store0 "zzz").1 (by decide),
   (claim_C8_get_status_spec store0 "j1").2 job0 (by decide)⟩

/-- A request with no city field. -/
def reqBlank : GenRequest := GenRequest.mk none (some "France") (some "noir") none none

/-- Claim C5: a generate request whose city or country is missing, empty or
whitespace-only after stripping receives a 400 with an error message, with
the job store unchanged and no worker thread started. -/
theorem claim_C5_blank_city_or_country (themes : List String) (new_id : String)
    (jobs : JobStore) (req : GenRequest)
    (h : pyStrip (req.city.getD "") = "" ∨ pyStrip (req.country.getD "") = "") :
    generate themes new_id jobs req =
      Except.ok (GenResult.mk 400 (some "City and country are required") none jobs none) := by
  rcases h with h | h <;> simp [generate, h]

/-- Witness for claim C5 at a concrete request with a missing city. -/
theorem claim_C5_witness :
    generate ["noir"] "id1" store0 reqBlank =
      Except.ok (GenResult.mk 400 (some "City and country are required") none store0 none) :=
  claim_C5_blank_city_or_country ["noir"] "id1" store0 reqBlank (Or.inl (by decide))

/-- A request naming a theme that is not registered. -/
def reqBadTheme : GenRequest :=
  GenRequest.mk (some "Paris") (some "France") (some "unknown") none none

/-- Claim C7: a generate request naming a theme id outside the available
set receives a 400 whose error message contains that theme id, with the job
store unchanged and no worker thread started. -/
theorem claim_C7_unknown_theme (themes : List String) (new_id : String)
    (jobs : JobStore) (req : GenRequest)
    (hc : pyStrip (req.city.getD "") ≠ "")
    (hk : pyStrip (req.country.getD "") ≠ "")
    (ht : req.theme.getD "feature_based" ∉ themes) :
    ∃ pre suf : String,
      generate themes new_id jobs req =
        Except.ok (GenResult.mk 400
          (some (pre ++ req.theme.getD "feature_based" ++ suf)) none jobs none) ∧
      pre = "Theme " ++ squo ∧ suf = squo ++ " not found" := by
  refine ⟨"Theme " ++ squo, squo ++ " not found", ?_, rfl, rfl⟩
  simp [generate, hc, hk, ht, String.append_assoc]

/-- Witness for claim C7 at a concrete request with an unknown theme. -/
theorem claim_C7_witness :
    ∃ pre suf : String,
      generate ["noir"] "id1" store0 reqBadTheme =
        Except.ok (GenResult.mk 400 (some (pre ++ "unknown" ++ suf)) none store0 none) ∧
      pre = "Theme " ++ squo ∧ suf = squo ++ " not found" :=
  claim_C7_unknown_theme ["noir"] "id1" store0 reqBadTheme (by decide) (by decide)
    (by decide)

/-- The success path of `generate` in closed form: with non-blank city and
country, a known theme and a distance that converts to an integer within
range, the handler inserts the pending record under the fresh id, starts the
worker with the same arguments, and returns the job id with a 200. -/
theorem generate_success_eq (themes : List String) (new_id : String)
    (jobs : JobStore) (req : GenRequest) (d : Int)
    (hc : pyStrip (req.city.getD "") ≠ "")
    (hk : pyStrip (req.country.getD "") ≠ "")
    (ht : req.theme.getD "feature_based" ∈ themes)
    (hd : pyInt (req.distance.getD (JVal.jint 10000)) = Except.ok d)
    (hlo : 1000 ≤ d) (hhi : d ≤ 50000) :
    generate themes new_id jobs req =
      Except.ok (GenResult.mk 200 none (some new_id)
        (storeInsert jobs new_id (Job.mk "pending" 0 none none
          (JobParams.mk (pyStrip (req.city.getD "")) (pyStrip (req.country.getD ""))
            (req.theme.getD "feature_based") d (strippedOrNone req.display_name))))
        (some (WorkerCall.mk new_id (pyStrip (req.city.getD ""))
          (pyStrip (req.country.getD "")) (req.theme.getD "feature_based") d
          (strippedOrNone req.display_name)))) := by
  have hlo' : ¬ d < 1000 := not_lt.mpr hlo
  have hhi' : ¬ d > 50000 := not_lt.mpr hhi
  simp [generate, hc, hk, ht, hd, hlo', hhi']

/-- Claim C2: a submission that passes validation stores the pending record
(progress 0) under the fresh job id before the id is returned and before the
worker is started: the returned store already answers a status query for the
id with 200 and the pending snapshot, the started worker carries that same
id, and the id differs from every id already present in the store (ids are
never deleted, so those are all previously issued ids).  Freshness of the
uuid itself is the external guarantee of `uuid4`, taken as hypothesis. -/
theorem claim_C2_job_inserted_before_return (themes : List String)
    (new_id : String) (jobs : JobStore) (req : GenRequest) (d : Int)
    (hc : pyStrip (req.city.getD "") ≠ "")
    (hk : pyStrip (req.country.getD "") ≠ "")
    (ht : req.theme.getD "feature_based" ∈ themes)
    (hd : pyInt (req.distance.getD (JVal.jint 10000)) = Except.ok d)
    (hlo : 1000 ≤ d) (hhi : d ≤ 50000)
    (hfresh : storeLookup jobs new_id = none) :
    ∃ r : GenResult,
      generate themes new_id jobs req = Except.ok r ∧
      r.code = 200 ∧ r.job_id = some new_id ∧
      (∃ ps : JobParams,
        storeLookup r.jobs new_id = some (Job.mk "pending" 0 none none ps) ∧
        get_status r.jobs new_id =
          (200, StatusResp.snapshot (Job.mk "pending" 0 none none ps))) ∧
      (∃ wc : WorkerCall, r.worker = some wc ∧ wc.job_id = new_id) ∧
      (∀ old_id : String, storeLookup jobs old_id ≠ none → new_id ≠ old_id) := by
  refine ⟨_, generate_success_eq themes new_id jobs req d hc hk ht hd hlo hhi,
    rfl, rfl, ⟨_, storeLookup_insert_self jobs new_id _, ?_⟩, ⟨_, rfl, rfl⟩, ?_⟩
  · simp [get_status, storeLookup_insert_self]
  · intro old_id ho heq
    subst heq
    exact ho hfresh

/-- A fully valid request at the lower distance boundary. -/
def req1000 : GenRequest :=
  GenRequest.mk (some "Paris") (some "France") (some "noir")
    (some (JVal.jint 1000)) none

/-- Witness for claim C2 at a concrete valid request and a fresh id. -/
theorem claim_C2_witness :
    ∃ r : GenResult,
      generate ["noir"] "id1" store0 req1000 = Except.ok r ∧
      r.code = 200 ∧ r.job_id = some "id1" ∧
      (∃ ps : JobParams,
        storeLookup r.jobs "id1" = some (Job.mk "pending" 0 none none ps) ∧
        get_status r.jobs "id1" =
          (200, StatusResp.snapshot (Job.mk "pending" 0 none none ps))) ∧
      (∃ wc : WorkerCall, r.worker = some wc ∧ wc.job_id = "id1") ∧
      (∀ old_id : String, storeLookup store0 old_id ≠ none → "id1" ≠ old_id) :=
  claim_C2_job_inserted_before_return ["noir"] "id1" store0 req1000 1000
    (by decide) (by decide) (by decide) rfl (by decide) (by decide)
    (by decide)

/-- Valid requests at and around the distance boundaries, with a
non-numeric string distance, and with the distance field absent. -/
def req500 : GenRequest :=
  GenRequest.mk (some "Paris") (some "France") (some "noir")
    (some (JVal.jint 500)) none

/-- A valid request at the upper distance boundary. -/
def req50000 : GenRequest :=
  GenRequest.mk (some "Paris") (some "France") (some "noir")
    (some (JVal.jint 50000)) none

/-- A valid request just above the upper distance boundary. -/
def req60000 : GenRequest :=
  GenRequest.mk (some "Paris") (some "France") (some "noir")
    (some (JVal.jint 60000)) none

/-- A valid request with a non-numeric string distance. -/
def reqAbc : GenRequest :=
  GenRequest.mk (some "Paris") (some "France") (some "noir")
    (some (JVal.jstr "abc")) none

/-- A valid request with no distance field. -/
def reqNoDist : GenRequest :=
  GenRequest.mk (some "Paris") (some "France") (some "noir") none none

/-- A valid request whose distance field is JSON null: `int(None)` raises
`TypeError`, which the handler does not catch. -/
def reqNullDistance : GenRequest :=
  GenRequest.mk (some "Paris") (some "France") (some "noir")
    (some JVal.jnull) none

/-- Claim C6 as amended: with city, country and theme valid, an integer
distance is accepted exactly when it lies in [1000, 50000] and rejected with
a 400 otherwise; a string distance that fails to parse as an integer is
rejected with a 400, and one that parses to an in-range integer is
accepted; an absent distance defaults to 10000 and is accepted.  (A present
distance of a non-numeric, non-string, non-boolean JSON type instead raises
an uncaught `TypeError`; see the counterexample.) -/
theorem claim_C6_distance_validation (themes : List String) (new_id : String)
    (jobs : JobStore) (req : GenRequest)
    (hc : pyStrip (req.city.getD "") ≠ "")
    (hk : pyStrip (req.country.getD "") ≠ "")
    (ht : req.theme.getD "feature_based" ∈ themes) :
    (∀ d : Int, req.distance = some (JVal.jint d) → 1000 ≤ d → d ≤ 50000 →
      ∃ r : GenResult, generate themes new_id jobs req = Except.ok r ∧
        r.code = 200 ∧ ∃ wc : WorkerCall, r.worker = some wc ∧ wc.distance = d) ∧
    (∀ d : Int, req.distance = some (JVal.jint d) → (d < 1000 ∨ d > 50000) →
      generate themes new_id jobs req =
        Except.ok (GenResult.mk 400
          (some "Distance must be between 1000 and 50000 meters") none jobs none)) ∧
    (∀ s : String, req.distance = some (JVal.jstr s) → pyIntOfStr s = none →
      generate themes new_id jobs req =
        Except.ok (GenResult.mk 400 (some "Invalid distance value") none jobs none)) ∧
    (∀ (s : String) (d : Int), req.distance = some (JVal.jstr s) →
      pyIntOfStr s = some d → 1000 ≤ d → d ≤ 50000 →
      ∃ r : GenResult, generate themes new_id jobs req = Except.ok r ∧
        r.code = 200 ∧ ∃ wc : WorkerCall, r.worker = some wc ∧ wc.distance = d) ∧
    (req.distance = none →
      ∃ r : GenResult, generate themes new_id jobs req = Except.ok r ∧
        r.code = 200 ∧
        ∃ wc : WorkerCall, r.worker = some wc ∧ wc.distance = 10000) := by
  refine ⟨?_, ?_, ?_, ?_, ?_⟩
  · intro d hd hlo hhi
    have hp : pyInt (req.distance.getD (JVal.jint 10000)) = Except.ok d := by
      rw [hd]
      rfl
    exact ⟨_, generate_success_eq themes new_id jobs req d hc hk ht hp hlo hhi,
      rfl, _, rfl, rfl⟩
  · intro d hd hrange
    have hp : pyInt (req.distance.getD (JVal.jint 10000)) = Except.ok d := by
      rw [hd]
      rfl
    rcases hrange with h | h <;> simp [generate, hc, hk, ht, hp, h]
  · intro s hs hn
    have hp : pyInt (req.distance.getD (JVal.jint 10000)) =
        Except.error PyErr.valueError := by
      rw [hs]
      simp [pyInt, hn]
    simp [generate, hc, hk, ht, hp]
  · intro s d hs hparse hlo hhi
    have hp : pyInt (req.distance.getD (JVal.jint 10000)) = Except.ok d := by
      rw [hs]
      simp [pyInt, hparse]
    exact ⟨_, generate_success_eq themes new_id jobs req d hc hk ht hp hlo hhi,
      rfl, _, rfl, rfl⟩
  · intro hd
    have hp : pyInt (req.distance.getD (JVal.jint 10000)) = Except.ok 10000 := by
      rw [hd]
      rfl
    exact ⟨_, generate_success_eq themes new_id jobs req 10000 hc hk ht hp
      (by norm_num) (by norm_num), rfl, _, rfl, rfl⟩

/-- Counterexample to claim C6 as stated: a distance of JSON null is
non-numeric, yet the handler does not return a 400 — `int(None)` raises a
`TypeError` that the `except ValueError` clause does not catch, so the
exception propagates unhandled. -/
theorem claim_C6_counterexample :
    generate ["noir"] "id1" [] reqNullDistance = Except.error PyErr.typeError ∧
    ∀ r : GenResult, generate ["noir"] "id1" [] reqNullDistance ≠ Except.ok r := by
  have h : generate ["noir"] "id1" [] reqNullDistance =
      Except.error PyErr.typeError := rfl
  refine ⟨h, fun r hr => ?_⟩
  rw [h] at hr
  exact Except.noConfusion hr

/-- Witness for the amended claim C6 at the concrete boundary and rejection
inputs: 1000 and 50000 accepted, 500 and 60000 rejected with 400, a
non-numeric string rejected with 400, and the default distance 10000. -/
theorem claim_C6_witness :
    (∃ r : GenResult, generate ["noir"] "id1" [] req1000 = Except.ok r ∧
      r.code = 200 ∧ ∃ wc : WorkerCall, r.worker = some wc ∧ wc.distance = 1000) ∧
    (∃ r : GenResult, generate ["noir"] "id1" [] req50000 = Except.ok r ∧
      r.code = 200 ∧ ∃ wc : WorkerCall, r.worker = some wc ∧ wc.distance = 50000) ∧
    generate ["noir"] "id1" [] req500 =
      Except.ok (GenResult.mk 400
        (some "Distance must be between 1000 and 50000 meters") none [] none) ∧
    generate ["noir"] "id1" [] req60000 =
      Except.ok (GenResult.mk 400
        (some "Distance must be between 1000 and 50000 meters") none [] none) ∧
    generate ["noir"] "id1" [] reqAbc =
      Except.ok (GenResult.mk 400 (some "Invalid distance value") none [] none) ∧
    (∃ r : GenResult, generate ["noir"] "id1" [] reqNoDist = Except.ok r ∧
      r.code = 200 ∧
      ∃ wc : WorkerCall, r.worker = some wc ∧ wc.distance = 10000) := by
  refine ⟨?_, ?_, ?_, ?_, ?_, ?_⟩
  · exact (claim_C6_distance_validation ["noir"] "id1" [] req1000
      (by decide) (by decide) (by decide)).1 1000 rfl (by decide) (by decide)
  · exact (claim_C6_distance_validation ["noir"] "id1" [] req50000
      (by decide) (by decide) (by decide)).1 50000 rfl (by decide) (by decide)
  · exact (claim_C6_distance_validation ["noir"] "id1" [] req500
      (by decide) (by decide) (by decide)).2.1 500 rfl (Or.inl (by decide))
  · exact (claim_C6_distance_validation ["noir"] "id1" [] req60000
      (by decide) (by decide) (by decide)).2.1 60000 rfl (Or.inr (by decide))
  · exact (claim_C6_distance_validation ["noir"] "id1" [] reqAbc
      (by decide) (by decide) (by decide)).2.2.1 "abc" rfl rfl
  · exact (claim_C6_distance_validation ["noir"] "id1" [] reqNoDist
      (by decide) (by decide) (by decide)).2.2.2.2 rfl

/-- Claim C4: when all four external calls succeed, the worker leaves the
job at status `complete` with progress 100 and the result set to the
basename of the generated output filename, and `complete` is the last
update of the worker trace (the worker makes no update after it, and
nothing else ever writes a job). -/
theorem claim_C4_success_completes (env : Env) (jobs : JobStore)
    (job_id city country theme_name : String) (distance : Int)
    (display_name : Option String) (j : Job) (coords : Coords)
    (th : ThemeObj) (outf : String)
    (hj : storeLookup jobs job_id = some j)
    (h1 : env.get_coordinates city country = Except.ok coords)
    (h2 : env.load_theme theme_name = Except.ok th)
    (h3 : env.generate_output_filename (pyOrElse display_name city) theme_name =
      Except.ok outf)
    (h4 : env.create_poster city country coords distance outf display_name =
      Except.ok ()) :
    storeLookup
        (run_generation env jobs job_id city country theme_name distance display_name)
        job_id =
      some (Job.mk "complete" 100 (some (basename outf)) j.error j.params) ∧
    run_generation_events env city country theme_name distance display_name =
      [UpdEvent.mk "geocoding" (some 10) none none,
       UpdEvent.mk "loading_theme" (some 20) none none,
       UpdEvent.mk "downloading" (some 30) none none,
       UpdEvent.mk "rendering" (some 50) none none,
       UpdEvent.mk "complete" (some 100) (some (basename outf)) none] := by
  constructor
  · simp [run_generation, h1, h2, h3, h4, storeLookup_update_self, hj, applyUpd]
  · simp [run_generation_events, h1, h2, h3, h4]

/-- Witness for claim C4 in the all-success environment on the sample
store. -/
theorem claim_C4_witness :
    storeLookup (run_generation envOk store0 "j1" "Paris" "France" "noir" 10000 none)
        "j1" =
      some (Job.mk "complete" 100 (some (basename "posters/Paris_noir.png")) none
        params0) :=
  (claim_C4_success_completes envOk store0 "j1" "Paris" "France" "noir" 10000 none
    job0 (48, 2) "noir" "posters/Paris_noir.png" (by decide) rfl rfl rfl rfl).1

/-- Claim C3 as amended: when some external call of the worker raises, the
job ends at the terminal status `error` with the exception message `str(e)`
stored in the error field (so the field is set, though the message itself is
the empty string when the exception carries no text) and the result field
still `None`; the worker function is total, so the exception reaches no HTTP
response. -/
theorem claim_C3_error_terminal (env : Env) (jobs : JobStore)
    (job_id city country theme_name : String) (distance : Int)
    (display_name : Option String) (j : Job)
    (hj : storeLookup jobs job_id = some j)
    (hres : j.result = none)
    (hfail : workerRaises env city country theme_name distance display_name = true) :
    ∃ (m : String) (p : Nat),
      storeLookup
          (run_generation env jobs job_id city country theme_name distance display_name)
          job_id =
        some (Job.mk "error" p none (some m) j.params) := by
  cases h1 : env.get_coordinates city country with
  | error e =>
    refine ⟨e, 10, ?_⟩
    simp [run_generation, h1, storeLookup_update_self, hj, applyUpd, hres]
  | ok coords =>
    cases h2 : env.load_theme theme_name with
    | error e =>
      refine ⟨e, 20, ?_⟩
      simp [run_generation, h1, h2, storeLookup_update_self, hj, applyUpd, hres]
    | ok th =>
      cases h3 : env.generate_output_filename (pyOrElse display_name city) theme_name with
      | error e =>
        refine ⟨e, 30, ?_⟩
        simp [run_generation, h1, h2, h3, storeLookup_update_self, hj, applyUpd, hres]
      | ok outf =>
        cases h4 : env.create_poster city country coords distance outf display_name with
        | error e =>
          refine ⟨e, 50, ?_⟩
          simp [run_generation, h1, h2, h3, h4, storeLookup_update_self, hj,
            applyUpd, hres]
        | ok u =>
          exfalso
          simp [workerRaises, h1, h2, h3, h4] at hfail

/-- Witness for the amended claim C3 in the environment whose rendering
call raises with message `boom`. -/
theorem claim_C3_witness :
    ∃ (m : String) (p : Nat),
      storeLookup
          (run_generation envFailRender store0 "j1" "Paris" "France" "noir" 10000 none)
          "j1" =
        some (Job.mk "error" p none (some m) params0) :=
  claim_C3_error_terminal envFailRender store0 "j1" "Paris" "France" "noir" 10000
    none job0 (by decide) rfl (by decide)

/-- Counterexample to claim C3 as stated: an exception whose `str(e)` is
empty (for example `raise ValueError()`) is stored verbatim, so the job
reaches the terminal error state with an error field set to the empty
string — not a non-empty message. -/
theorem claim_C3_counterexample :
    storeLookup
        (run_generation envEmptyMsg store0 "j1" "Paris" "France" "noir" 10000 none)
        "j1" =
      some (Job.mk "error" 50 none (some "") params0) ∧
    workerRaises envEmptyMsg "Paris" "France" "noir" 10000 none = true ∧
    ¬ ∃ m : String, m ≠ "" ∧
      (storeLookup
          (run_generation envEmptyMsg store0 "j1" "Paris" "France" "noir" 10000 none)
          "j1").bind Job.error = some m := by
  have h : storeLookup
      (run_generation envEmptyMsg store0 "j1" "Paris" "France" "noir" 10000 none)
      "j1" = some (Job.mk "error" 50 none (some "") params0) := by decide
  refine ⟨h, by decide, ?_⟩
  rintro ⟨m, hm, hb⟩
  rw [h] at hb
  simp at hb
  exact hm hb.symm

/-- Claim C1: starting from `pending`, every update the worker makes moves
the status one step forward through geocoding, loading_theme, downloading,
rendering, complete — recording progress 10, 20, 30, 50, 100 at those
phases — or jumps directly to the terminal `error`; no transition regresses,
and a terminal status (`error` or `complete`) occurs only as the last update
of the trace.  The worker `run_generation` is exactly the fold of this
update trace over the job store. -/
theorem claim_C1_status_machine (env : Env) (city country theme_name : String)
    (distance : Int) (display_name : Option String) :
    (∀ (jobs : JobStore) (job_id : String),
      run_generation env jobs job_id city country theme_name distance display_name =
        (run_generation_events env city country theme_name distance
          display_name).foldl (applyEvent job_id) jobs) ∧
    List.Chain' validStep
      ("pending" ::
        (run_generation_events env city country theme_name distance display_name).map
          UpdEvent.status) ∧
    (∀ pr ∈ (run_generation_events env city country theme_name distance
        display_name).map (fun ev => (ev.status, ev.progress)),
      pr.1 ≠ "error" → pr.2 = phaseProgress pr.1) ∧
    (∀ s ∈ ((run_generation_events env city country theme_name distance
        display_name).map UpdEvent.status).dropLast,
      s ≠ "error" ∧ s ≠ "complete") := by
  refine ⟨fun jobs job_id =>
    run_generation_eq_foldl env jobs job_id city country theme_name distance
      display_name, ?_⟩
  cases h1 : env.get_coordinates city country with
  | error e =>
    simp only [run_generation_events, h1, List.map_cons, List.map_nil,
      List.dropLast]
    refine ⟨?_, by decide, by decide⟩
    simp [List.chain'_cons, List.chain'_singleton, validStep, nextStatus]
  | ok coords =>
    cases h2 : env.load_theme theme_name with
    | error e =>
      simp only [run_generation_events, h1, h2, List.map_cons, List.map_nil,
        List.dropLast]
      refine ⟨?_, by decide, by decide⟩
      simp [List.chain'_cons, List.chain'_singleton, validStep, nextStatus]
    | ok th =>
      cases h3 : env.generate_output_filename (pyOrElse display_name city)
          theme_name with
      | error e =>
        simp only [run_generation_events, h1, h2, h3, List.map_cons,
          List.map_nil, List.dropLast]
        refine ⟨?_, by decide, by decide⟩
        simp [List.chain'_cons, List.chain'_singleton, validStep, nextStatus]
      | ok outf =>
        cases h4 : env.create_poster city country coords distance outf
            display_name with
        | error e =>
          simp only [run_generation_events, h1, h2, h3, h4, List.map_cons,
            List.map_nil, List.dropLast]
          refine ⟨?_, by decide, by decide⟩
          simp [List.chain'_cons, List.chain'_singleton, validStep, nextStatus]
        | ok u =>
          simp only [run_generation_events, h1, h2, h3, h4, List.map_cons,
            List.map_nil, List.dropLast]
          refine ⟨?_, by decide, by decide⟩
          simp [List.chain'_cons, List.chain'_singleton, validStep, nextStatus]
